import Mathlib

/-!
Verification of the dlite storage-plugin registry
(`src/dlite-storage-plugins.c`).

The registry keeps three pieces of process-global state: the lazily
created plugin info (`storage_plugin_info`, holding the name→descriptor
mapping and the search paths), the cached digest of the search paths
(`storage_plugin_path_hash`), and the atexit teardown registration.
The generic plugin substrate (`plugin_get_api`, `plugin_load_all`,
`plugin_path_insert`, `pathshash`, `errx`, ...) is not part of this
repository; those pieces are modelled from the specification, with a
doc comment marking each such definition.

Descriptors are abstracted as natural numbers; the filesystem/loader is
abstracted as an oracle mapping the current search-path list to the
sequence of per-file load outcomes of a full scan (`none` for a file
that fails to open or lacks the entry symbol).
-/

namespace DliteStoragePlugins

/-- Modelled from the spec: the name→descriptor mapping kept by the
plugin substrate (`PluginInfo` in `utils/plugin.h`, not under `src/`).
`registered` is the mapping from driver name to capability descriptor
(at most one entry per name, newest first); `paths` is the ordered
search-path set. -/
structure PluginInfoState where
  registered : List (String × Nat)
  paths : List String
deriving DecidableEq, Repr

/-- The process-global state of `dlite-storage-plugins.c`:
`storage_plugin_info` (NULL modelled as `none`), the cached 32-byte
path digest `storage_plugin_path_hash` (the initial all-zero array is
modelled as `none`, assumed distinct from every computed digest), and
the number of times the atexit teardown hook has been registered. -/
structure GlobalState where
  storage_plugin_info : Option PluginInfoState
  storage_plugin_path_hash : Option (List String)
  atexitCount : Nat
deriving DecidableEq, Repr

/-- Environment/build-mode inputs of the C code: whether
`plugin_info_create` succeeds (it fails only on allocation failure),
whether `dlite_use_build_root()` holds, the paths seeded from the
`DLITE_STORAGE_PLUGIN_DIRS` environment variable, and the mode-dependent
built-in default directories. -/
structure Config where
  allocOk : Bool
  useBuildRoot : Bool
  envPaths : List String
  buildPaths : List String
  installedPaths : List String

/-- The filesystem/loader oracle: for a given search-path list, the
sequence of per-file outcomes of a full scan, in scan order.  `some
(name, d)` is a shared library whose well-known entry symbol reported
driver `name` with descriptor `d`; `none` is a file that failed to
open, lacked the symbol, or failed during the probe. -/
def Loader : Type := List String → List (Option (String × Nat))

/-- Modelled from the spec: `plugin_get_api` (plugin substrate, not
under `src/`) looks the driver name up in the mapping. -/
def plugin_get_api (registered : List (String × Nat)) (name : String) : Option Nat :=
  registered.lookup name

/-- Modelled from the spec: registering `(name, d)` overwrites any
prior entry under that name (last-registered-wins, at most one entry
per driver name). -/
def plugin_register (registered : List (String × Nat)) (name : String) (d : Nat) :
    List (String × Nat) :=
  (name, d) :: registered.filter (fun e => e.1 ≠ name)

/-- Modelled from the spec: `plugin_load_all` (plugin substrate, not
under `src/`) performs a full rescan: every discoverable file is
probed in scan order; successful probes register their self-reported
name, failed files are skipped without aborting the scan. -/
def plugin_load_all (loader : Loader) (info : PluginInfoState) : PluginInfoState :=
  { info with
    registered :=
      (loader info.paths).foldl
        (fun r e =>
          match e with
          | some (n, d) => plugin_register r n d
          | none => r)
        info.registered }

/-- Modelled from the spec: `pathshash` (in `pathshash.c`, not under
`src/`) computes a deterministic fixed-width digest over the ordered
search-path contents.  It is modelled as the path list itself, the
collision-free idealization under which digest equality coincides with
path-list equality (exactly how the spec reasons about it:
"divergence is exactly the trigger condition for a rescan"). -/
def pathshash (paths : List String) : List String := paths

/-- Embedding of `get_storage_plugin_info` (lines 38-57): if
`storage_plugin_info` is set, return it unchanged; otherwise attempt to
create it, and on success register the atexit hook and seed the search
paths from the environment variable plus the mode-dependent defaults
(`dlite_STORAGE_PLUGINS` under the build root, the installed-prefix
directories otherwise). -/
def get_storage_plugin_info (cfg : Config) (st : GlobalState) :
    Option PluginInfoState × GlobalState :=
  match st.storage_plugin_info with
  | some info => (some info, st)
  | none =>
    if cfg.allocOk then
      let info : PluginInfoState :=
        { registered := []
          paths := cfg.envPaths ++
            (if cfg.useBuildRoot then cfg.buildPaths else cfg.installedPaths) }
      (some info,
        { st with
          storage_plugin_info := some info
          atexitCount := st.atexitCount + 1 })
    else
      (none, st)

/-- Embedding of the error-message construction of
`dlite_storage_plugin_get` (lines 103-122): header with the driver
name, one indented line per search path (counting them in `n` as the C
loop does), and — only when at most one path was listed — the
environment-variable hint, whose prefix depends on the build mode.
The typo "enveronment" is the source text. -/
def storage_plugin_error_message (useBuildRoot : Bool) (paths : List String)
    (name : String) : String :=
  let submsg : String := if useBuildRoot then "" else "DLITE_ROOT or "
  let buf : String :=
    "cannot find storage plugin for driver \"" ++ name ++ "\" in search path:\n"
  let scan : String × Nat :=
    paths.foldl (fun acc p => (acc.1 ++ "    " ++ p ++ "\n", acc.2 + 1)) (buf, 0)
  if scan.2 ≤ 1 then
    scan.1 ++ "Is the " ++ submsg ++
      "DLITE_STORAGE_PLUGIN_DIRS enveronment variable(s) set?"
  else
    scan.1

/-- Outcome of `dlite_storage_plugin_get`: a found descriptor, the NULL
return when the registry cannot be constructed (line 84), or process
termination.  Modelled from the spec: `errx(1, ...)` (in
`utils/err.h`, not under `src/`) terminates the process, so the
trailing `return NULL` (line 123) is modelled as unreachable;
`terminated` records the message built for `errx`. -/
inductive GetResult where
  | found (d : Nat)
  | nullReturn
  | terminated (msg : String)
deriving DecidableEq, Repr

/-- Embedding of `dlite_storage_plugin_get` (lines 78-124).  Returns
the outcome, the resulting global state, and the number of full
rescans performed during the call.  Control flow as in the source:
registry lookup fast path; otherwise compare the digest of the current
paths with the cached hash and, when they differ, rescan, update the
cached hash and retry the lookup once; otherwise build the error
message and terminate. -/
def dlite_storage_plugin_get (cfg : Config) (loader : Loader) (st : GlobalState)
    (name : String) : GetResult × GlobalState × Nat :=
  match get_storage_plugin_info cfg st with
  | (none, st1) => (GetResult.nullReturn, st1, 0)
  | (some info, st1) =>
    match plugin_get_api info.registered name with
    | some api => (GetResult.found api, st1, 0)
    | none =>
      let hash := pathshash info.paths
      if st1.storage_plugin_path_hash ≠ some hash then
        let info2 := plugin_load_all loader info
        let st2 : GlobalState :=
          { st1 with
            storage_plugin_info := some info2
            storage_plugin_path_hash := some hash }
        match plugin_get_api info2.registered name with
        | some api => (GetResult.found api, st2, 1)
        | none =>
          (GetResult.terminated
            (storage_plugin_error_message cfg.useBuildRoot info2.paths name),
           st2, 1)
      else
        (GetResult.terminated
          (storage_plugin_error_message cfg.useBuildRoot info.paths name),
         st1, 0)

/-- Embedding of `dlite_storage_plugin_load_all` (lines 130-136):
returns 1 if the registry is unavailable, otherwise performs a full
rescan and returns 0.  Note that, unlike the rescan branch of
`dlite_storage_plugin_get`, it does not touch
`storage_plugin_path_hash`.  The third component counts rescans. -/
def dlite_storage_plugin_load_all (cfg : Config) (loader : Loader)
    (st : GlobalState) : Int × GlobalState × Nat :=
  match get_storage_plugin_info cfg st with
  | (none, st1) => (1, st1, 0)
  | (some info, st1) =>
    (0, { st1 with storage_plugin_info := some (plugin_load_all loader info) }, 1)

/-- Embedding of `dlite_storage_plugin_unload_all` (lines 141-152):
enumerates all registered names and unloads each (modelled from the
spec for `plugin_names`/`plugin_unload`, plugin substrate not under
`src/`: the net effect is an empty mapping).  The cached path hash and
the search paths are untouched. -/
def dlite_storage_plugin_unload_all (cfg : Config) (st : GlobalState) : GlobalState :=
  match get_storage_plugin_info cfg st with
  | (none, st1) => st1
  | (some info, st1) =>
    { st1 with storage_plugin_info := some { info with registered := [] } }

/-- Modelled from the spec: `plugin_path_insert` (plugin substrate, not
under `src/`) inserts `path` at index `n` into the ordered path list;
a negative `n` counts from the end (position `len + n + 1`, the
append-relative convention of the spec), an out-of-range index is
clipped to the nearest valid bound, and the actual insertion index is
returned alongside the new list. -/
def plugin_path_insert (paths : List String) (path : String) (n : Int) :
    List String × Nat :=
  let L : Int := paths.length
  let pos : Int := if n < 0 then L + n + 1 else n
  let idx : Nat := (max 0 (min pos L)).toNat
  (paths.take idx ++ path :: paths.drop idx, idx)

/-- Embedding of `dlite_storage_plugin_path_insert` (lines 247-252):
returns 1 if the registry is unavailable, otherwise the insertion
index computed by the substrate. -/
def dlite_storage_plugin_path_insert (cfg : Config) (st : GlobalState) (n : Int)
    (path : String) : Int × GlobalState :=
  match get_storage_plugin_info cfg st with
  | (none, st1) => (1, st1)
  | (some info, st1) =>
    let r := plugin_path_insert info.paths path n
    ((r.2 : Int), { st1 with storage_plugin_info := some { info with paths := r.1 } })

/-- Embedding of `dlite_storage_plugin_path_append` (lines 259-264):
returns 1 if the registry is unavailable, otherwise appends at the end
and returns the new index (modelled from the spec for
`plugin_path_append`). -/
def dlite_storage_plugin_path_append (cfg : Config) (st : GlobalState)
    (path : String) : Int × GlobalState :=
  match get_storage_plugin_info cfg st with
  | (none, st1) => (1, st1)
  | (some info, st1) =>
    ((info.paths.length : Int),
      { st1 with storage_plugin_info := some { info with paths := info.paths ++ [path] } })

/-- Embedding of `dlite_storage_plugin_path_appendn` (lines 272-277):
like append but keeping only the first `n` characters of `path`
(modelled from the spec for `plugin_path_appendn`). -/
def dlite_storage_plugin_path_appendn (cfg : Config) (st : GlobalState)
    (path : String) (n : Nat) : Int × GlobalState :=
  match get_storage_plugin_info cfg st with
  | (none, st1) => (1, st1)
  | (some info, st1) =>
    ((info.paths.length : Int),
      { st1 with
        storage_plugin_info := some { info with paths := info.paths ++ [path.take n] } })

/-! ### Concrete fixtures used by witnesses and counterexamples -/

/-- A configuration in build-root mode whose environment variable
contributes the single search path `/p`. -/
def cfg0 : Config := ⟨true, true, ["/p"], [], []⟩

/-- A configuration whose registry construction fails (allocation
failure in `plugin_info_create`). -/
def cfgBad : Config := ⟨false, true, [], [], []⟩

/-- A loader oracle: scanning any path list containing `/p` finds a
plugin reporting name `x`, then a file that fails to load, then a
plugin reporting name `y`. -/
def loader0 : Loader := fun paths =>
  if "/p" ∈ paths then [some ("x", 1), none, some ("y", 2)] else []

/-- An initialized plugin info with one registered driver `a` and the
single search path `/p`. -/
def info0 : PluginInfoState := ⟨[("a", 5)], ["/p"]⟩

/-- A global state holding `info0` with the sentinel (never-rescanned)
cached hash. -/
def st0 : GlobalState := ⟨some info0, none, 1⟩

/-- A global state holding `info0` whose cached hash matches the
current search paths (as after a completed rescan in
`dlite_storage_plugin_get`). -/
def stH : GlobalState := ⟨some info0, some ["/p"], 1⟩

/-- The pristine process state: no registry, zeroed hash, no teardown
hook registered. -/
def stZ : GlobalState := ⟨none, none, 0⟩

/-- An initialized registry with no drivers and the single path `/w`
(on which `loader0` finds nothing). -/
def infoW : PluginInfoState := ⟨[], ["/w"]⟩

/-- Global state holding `infoW` with the sentinel cached hash. -/
def stW : GlobalState := ⟨some infoW, none, 1⟩

/-- Global state with two search paths whose cached hash is current,
so a missing driver fails without a rescan. -/
def stTwo : GlobalState := ⟨some ⟨[], ["/a", "/b"]⟩, some ["/a", "/b"], 1⟩

/-- Global state with exactly one search path, so that a successful
append returns index 1. -/
def stOne : GlobalState := ⟨some ⟨[], ["/a"]⟩, none, 1⟩

/-! ### Shared helper lemmas -/

theorem get_storage_plugin_info_of_some (cfg : Config) (st : GlobalState)
    (info : PluginInfoState) (h : st.storage_plugin_info = some info) :
    get_storage_plugin_info cfg st = (some info, st) := by
  unfold get_storage_plugin_info
  rw [h]

theorem plugin_load_all_paths (loader : Loader) (info : PluginInfoState) :
    (plugin_load_all loader info).paths = info.paths := rfl

theorem plugin_get_api_nil (name : String) :
    plugin_get_api ([] : List (String × Nat)) name = none := rfl

/-- Any call to `dlite_storage_plugin_get` on an initialized registry
either performs no rescan and leaves the global state untouched, or
performs exactly one rescan, ending in the rescanned state with the
cached hash set to the digest of the search paths. -/
theorem get_state_dichotomy (cfg : Config) (loader : Loader) (st : GlobalState)
    (info : PluginInfoState) (name : String)
    (h : st.storage_plugin_info = some info) :
    ((dlite_storage_plugin_get cfg loader st name).2.2 = 0 ∧
      (dlite_storage_plugin_get cfg loader st name).2.1 = st)
    ∨ ((dlite_storage_plugin_get cfg loader st name).2.2 = 1 ∧
      (dlite_storage_plugin_get cfg loader st name).2.1 =
        { st with
          storage_plugin_info := some (plugin_load_all loader info)
          storage_plugin_path_hash := some (pathshash info.paths) }) := by
  have hg := get_storage_plugin_info_of_some cfg st info h
  cases hapi : plugin_get_api info.registered name with
  | some d =>
    left
    simp [dlite_storage_plugin_get, hg, hapi]
  | none =>
    by_cases hh : st.storage_plugin_path_hash = some (pathshash info.paths)
    · left
      simp [dlite_storage_plugin_get, hg, hapi, hh]
    · right
      simp only [dlite_storage_plugin_get, hg, hapi, ne_eq, hh, not_false_eq_true,
        if_true]
      cases hapi2 : plugin_get_api (plugin_load_all loader info).registered name <;>
        simp [hapi2]

/-- When the cached hash already equals the digest of the current
search paths, `dlite_storage_plugin_get` performs no rescan. -/
theorem get_no_rescan_of_hash_current (cfg : Config) (loader : Loader)
    (st : GlobalState) (info : PluginInfoState) (name : String)
    (h : st.storage_plugin_info = some info)
    (hh : st.storage_plugin_path_hash = some (pathshash info.paths)) :
    (dlite_storage_plugin_get cfg loader st name).2.2 = 0 := by
  have hg := get_storage_plugin_info_of_some cfg st info h
  cases hapi : plugin_get_api info.registered name with
  | some d => simp [dlite_storage_plugin_get, hg, hapi]
  | none => simp [dlite_storage_plugin_get, hg, hapi, hh]

/-- `dlite_storage_plugin_get` never performs more than one rescan in
a single call. -/
theorem get_rescans_le_one (cfg : Config) (loader : Loader) (st : GlobalState)
    (name : String) :
    (dlite_storage_plugin_get cfg loader st name).2.2 ≤ 1 := by
  rcases hg : get_storage_plugin_info cfg st with ⟨oi, st1⟩
  cases oi with
  | none => simp [dlite_storage_plugin_get, hg]
  | some info =>
    cases hapi : plugin_get_api info.registered name with
    | some d => simp [dlite_storage_plugin_get, hg, hapi]
    | none =>
      by_cases hh : st1.storage_plugin_path_hash = some (pathshash info.paths)
      · simp [dlite_storage_plugin_get, hg, hapi, hh]
      · simp only [dlite_storage_plugin_get, hg, hapi, ne_eq, hh, not_false_eq_true,
          if_true]
        cases hapi2 : plugin_get_api (plugin_load_all loader info).registered name <;>
          simp [hapi2]

/-- When the name misses the mapping and the cached hash equals the
digest of the current search paths, `dlite_storage_plugin_get`
terminates with the not-found message, with no rescan and no state
change. -/
theorem get_hash_equal (cfg : Config) (loader : Loader) (st : GlobalState)
    (info : PluginInfoState) (name : String)
    (h : st.storage_plugin_info = some info)
    (hmiss : plugin_get_api info.registered name = none)
    (hh : st.storage_plugin_path_hash = some (pathshash info.paths)) :
    dlite_storage_plugin_get cfg loader st name =
      (GetResult.terminated
        (storage_plugin_error_message cfg.useBuildRoot info.paths name), st, 0) := by
  have hg := get_storage_plugin_info_of_some cfg st info h
  simp [dlite_storage_plugin_get, hg, hmiss, hh]

/-- When the name misses the mapping and the cached hash differs from
the digest of the current search paths, `dlite_storage_plugin_get`
performs exactly one rescan. -/
theorem get_rescans_eq_one_of (cfg : Config) (loader : Loader) (st : GlobalState)
    (info : PluginInfoState) (name : String)
    (h : st.storage_plugin_info = some info)
    (hmiss : plugin_get_api info.registered name = none)
    (hdiff : st.storage_plugin_path_hash ≠ some (pathshash info.paths)) :
    (dlite_storage_plugin_get cfg loader st name).2.2 = 1 := by
  have hg := get_storage_plugin_info_of_some cfg st info h
  have hdiffs : ¬ st.storage_plugin_path_hash = some (pathshash info.paths) := hdiff
  simp only [dlite_storage_plugin_get, hg, hmiss, ne_eq, hdiffs, not_false_eq_true,
    if_true]
  cases hapi2 : plugin_get_api (plugin_load_all loader info).registered name <;>
    simp [hapi2]

/-- Shape of `dlite_storage_plugin_load_all` on an initialized
registry: success return, a full rescan, and no hash update. -/
theorem load_all_eq (cfg : Config) (loader : Loader) (st : GlobalState)
    (info : PluginInfoState) (h : st.storage_plugin_info = some info) :
    dlite_storage_plugin_load_all cfg loader st =
      (0, { st with storage_plugin_info := some (plugin_load_all loader info) }, 1) := by
  have hg := get_storage_plugin_info_of_some cfg st info h
  simp [dlite_storage_plugin_load_all, hg]

/-- Shape of `dlite_storage_plugin_path_append` on an initialized
registry: the new path goes to the end and its index is returned. -/
theorem path_append_eq (cfg : Config) (st : GlobalState) (info : PluginInfoState)
    (p : String) (h : st.storage_plugin_info = some info) :
    dlite_storage_plugin_path_append cfg st p =
      ((info.paths.length : Int),
        { st with storage_plugin_info := some { info with paths := info.paths ++ [p] } }) := by
  have hg := get_storage_plugin_info_of_some cfg st info h
  simp [dlite_storage_plugin_path_append, hg]

theorem paths_ne_append_singleton (l : List String) (p : String) :
    l ≠ l ++ [p] := by
  intro hcontra
  have := congrArg List.length hcontra
  simp at this

/-- Fast path of `dlite_storage_plugin_get`: a registered name is
returned at once, with no rescan and no state change. -/
theorem get_fast_path (cfg : Config) (loader : Loader) (st : GlobalState)
    (info : PluginInfoState) (name : String) (d : Nat)
    (h : st.storage_plugin_info = some info)
    (hd : plugin_get_api info.registered name = some d) :
    dlite_storage_plugin_get cfg loader st name = (GetResult.found d, st, 0) := by
  have hg := get_storage_plugin_info_of_some cfg st info h
  simp [dlite_storage_plugin_get, hg, hd]

/-- Rescan branch of `dlite_storage_plugin_get` when the retried
lookup succeeds. -/
theorem get_rescan_found (cfg : Config) (loader : Loader) (st : GlobalState)
    (info : PluginInfoState) (name : String) (d : Nat)
    (h : st.storage_plugin_info = some info)
    (hmiss : plugin_get_api info.registered name = none)
    (hfound : plugin_get_api (plugin_load_all loader info).registered name = some d)
    (hdiff : st.storage_plugin_path_hash ≠ some (pathshash info.paths)) :
    dlite_storage_plugin_get cfg loader st name =
      (GetResult.found d,
       { st with
         storage_plugin_info := some (plugin_load_all loader info)
         storage_plugin_path_hash := some (pathshash info.paths) }, 1) := by
  have hg := get_storage_plugin_info_of_some cfg st info h
  have hdiffs : ¬ st.storage_plugin_path_hash = some (pathshash info.paths) := hdiff
  simp [dlite_storage_plugin_get, hg, hmiss, hdiffs, hfound]

/-- Rescan branch of `dlite_storage_plugin_get` when the retried
lookup misses as well: termination with the not-found message. -/
theorem get_rescan_miss (cfg : Config) (loader : Loader) (st : GlobalState)
    (info : PluginInfoState) (name : String)
    (h : st.storage_plugin_info = some info)
    (hmiss : plugin_get_api info.registered name = none)
    (hmiss2 : plugin_get_api (plugin_load_all loader info).registered name = none)
    (hdiff : st.storage_plugin_path_hash ≠ some (pathshash info.paths)) :
    dlite_storage_plugin_get cfg loader st name =
      (GetResult.terminated
        (storage_plugin_error_message cfg.useBuildRoot info.paths name),
       { st with
         storage_plugin_info := some (plugin_load_all loader info)
         storage_plugin_path_hash := some (pathshash info.paths) }, 1) := by
  have hg := get_storage_plugin_info_of_some cfg st info h
  have hdiffs : ¬ st.storage_plugin_path_hash = some (pathshash info.paths) := hdiff
  simp [dlite_storage_plugin_get, hg, hmiss, hdiffs, hmiss2, plugin_load_all_paths]

/-- `dlite_storage_plugin_get` returns NULL exactly when
`get_storage_plugin_info` does. -/
theorem get_result_nullReturn_iff (cfg : Config) (loader : Loader) (st : GlobalState)
    (name : String) :
    ((dlite_storage_plugin_get cfg loader st name).1 = GetResult.nullReturn ↔
      (get_storage_plugin_info cfg st).1 = none) := by
  rcases hg : get_storage_plugin_info cfg st with ⟨oi, st1⟩
  cases oi with
  | none => simp [dlite_storage_plugin_get, hg]
  | some info =>
    cases hapi : plugin_get_api info.registered name with
    | some d => simp [dlite_storage_plugin_get, hg, hapi]
    | none =>
      by_cases hh : st1.storage_plugin_path_hash = some (pathshash info.paths)
      · simp [dlite_storage_plugin_get, hg, hapi, hh]
      · simp only [dlite_storage_plugin_get, hg, hapi, ne_eq, hh, not_false_eq_true,
          if_true]
        cases hapi2 : plugin_get_api (plugin_load_all loader info).registered name <;>
          simp [hapi2]

/-- `get_storage_plugin_info` fails exactly when the registry is
absent and cannot be allocated. -/
theorem get_info_none_iff (cfg : Config) (st : GlobalState) :
    ((get_storage_plugin_info cfg st).1 = none ↔
      st.storage_plugin_info = none ∧ cfg.allocOk = false) := by
  rcases hst : st.storage_plugin_info with _ | i
  · rcases hall : cfg.allocOk with _ | _
    · simp [get_storage_plugin_info, hst, hall]
    · simp [get_storage_plugin_info, hst, hall]
  · simp [get_storage_plugin_info_of_some cfg st i hst, hst]

/-- The path-listing loop of the error message: the paired fold builds
the string fold and counts exactly the number of paths. -/
theorem scan_foldl (paths : List String) (buf : String) (n : Nat) :
    paths.foldl (fun acc p => (acc.1 ++ "    " ++ p ++ "\n", acc.2 + 1)) (buf, n)
      = (paths.foldl (fun acc p => acc ++ "    " ++ p ++ "\n") buf,
         n + paths.length) := by
  induction paths generalizing buf n with
  | nil => simp
  | cons q qs ih =>
    simp only [List.foldl_cons, ih, List.length_cons]
    congr 1
    omega

/-- Folding the per-file load outcomes registers exactly the
successful ones: failed files are identity steps of the fold. -/
theorem foldl_skip_failures (l : List (Option (String × Nat)))
    (acc : List (String × Nat)) :
    l.foldl
        (fun r e =>
          match e with
          | some (n, d) => plugin_register r n d
          | none => r) acc
      = (l.filterMap id).foldl (fun r e => plugin_register r e.1 e.2) acc := by
  induction l generalizing acc with
  | nil => rfl
  | cons e es ih =>
    cases e with
    | none => simp [List.filterMap_cons, ih]
    | some nd => simp [List.filterMap_cons, ih]

/-- The insertion index computed by `plugin_path_insert` never exceeds
the length of the path list, and the result is the list with the path
inserted at that index. -/
theorem plugin_path_insert_spec (paths : List String) (p : String) (n : Int) :
    (plugin_path_insert paths p n).2 ≤ paths.length
    ∧ (plugin_path_insert paths p n).1 =
        paths.take (plugin_path_insert paths p n).2 ++
          p :: paths.drop (plugin_path_insert paths p n).2 := by
  constructor
  · simp only [plugin_path_insert]
    split <;> omega
  · rfl

theorem plugin_path_insert_neg_one (paths : List String) (p : String) :
    plugin_path_insert paths p (-1) = (paths ++ [p], paths.length) := by
  have hidx :
      (max 0 (min (if (-1 : Int) < 0 then (paths.length : Int) + -1 + 1 else -1)
        (paths.length : Int))).toNat = paths.length := by
    split <;> omega
  simp only [plugin_path_insert, hidx]
  simp

theorem plugin_path_insert_clip_high (paths : List String) (p : String) :
    (plugin_path_insert paths p ((paths.length : Int) + 100)).2 = paths.length := by
  simp only [plugin_path_insert]
  split <;> omega

theorem plugin_path_insert_clip_low (paths : List String) (p : String) :
    (plugin_path_insert paths p (-((paths.length : Int) + 100))).2 = 0 := by
  simp only [plugin_path_insert]
  split <;> omega

/-! ### Claim theorems -/

/-- C1: `dlite_storage_plugin_get` follows the resolution order with
first success winning: a name already registered is returned
immediately with no rescan and no state change; otherwise the digest
of the current search paths is computed, and a full rescan followed by
an update of the cached hash and exactly one retry of the mapping
lookup happens if and only if that digest differs from the cached
hash. -/
theorem dlite_storage_plugin_get_resolution_order (cfg : Config) (loader : Loader)
    (st : GlobalState) (info : PluginInfoState) (name : String)
    (h : st.storage_plugin_info = some info) :
    (∀ d, plugin_get_api info.registered name = some d →
      dlite_storage_plugin_get cfg loader st name = (GetResult.found d, st, 0))
    ∧ (plugin_get_api info.registered name = none →
        st.storage_plugin_path_hash = some (pathshash info.paths) →
        dlite_storage_plugin_get cfg loader st name =
          (GetResult.terminated
            (storage_plugin_error_message cfg.useBuildRoot info.paths name),
           st, 0))
    ∧ (plugin_get_api info.registered name = none →
        st.storage_plugin_path_hash ≠ some (pathshash info.paths) →
        dlite_storage_plugin_get cfg loader st name =
          ((match plugin_get_api (plugin_load_all loader info).registered name with
            | some d => GetResult.found d
            | none =>
              GetResult.terminated
                (storage_plugin_error_message cfg.useBuildRoot
                  (plugin_load_all loader info).paths name)),
           { st with
             storage_plugin_info := some (plugin_load_all loader info)
             storage_plugin_path_hash := some (pathshash info.paths) },
           1)) := by
  have hg := get_storage_plugin_info_of_some cfg st info h
  refine ⟨?_, ?_, ?_⟩
  · intro d hd
    simp [dlite_storage_plugin_get, hg, hd]
  · intro h1 h2
    simp [dlite_storage_plugin_get, hg, h1, h2]
  · intro h1 h2
    have h2s : ¬ st.storage_plugin_path_hash = some (pathshash info.paths) := h2
    simp only [dlite_storage_plugin_get, hg, h1, ne_eq, h2s, not_false_eq_true, if_true]
    cases hapi : plugin_get_api (plugin_load_all loader info).registered name <;>
      simp [hapi]

/-- Witness for C1 at a concrete state: the registered driver `a` is
returned from the fast path with zero rescans. -/
theorem dlite_storage_plugin_get_resolution_order_witness :
    dlite_storage_plugin_get cfg0 loader0 st0 "a" = (GetResult.found 5, st0, 0) :=
  (dlite_storage_plugin_get_resolution_order cfg0 loader0 st0 info0 "a" rfl).1 5 rfl

/-- C7: `get_storage_plugin_info` is lazily initializing and
idempotent: the first successful call constructs the registry, seeds
the search paths from the environment variable and the mode-dependent
defaults and registers the atexit teardown hook exactly once; any
call finding the registry constructed returns the same instance with
no state change (in particular no further hook registration); the
operation returns `none` exactly when construction is needed and
allocation fails. -/
theorem get_storage_plugin_info_lazy_idempotent (cfg : Config) (st : GlobalState) :
    (∀ info, st.storage_plugin_info = some info →
      get_storage_plugin_info cfg st = (some info, st))
    ∧ (st.storage_plugin_info = none → cfg.allocOk = true →
        get_storage_plugin_info cfg st =
          (some
            { registered := []
              paths := cfg.envPaths ++
                (if cfg.useBuildRoot then cfg.buildPaths else cfg.installedPaths) },
           { st with
             storage_plugin_info := some
               { registered := []
                 paths := cfg.envPaths ++
                   (if cfg.useBuildRoot then cfg.buildPaths else cfg.installedPaths) }
             atexitCount := st.atexitCount + 1 }))
    ∧ (∀ info st1, get_storage_plugin_info cfg st = (some info, st1) →
        get_storage_plugin_info cfg st1 = (some info, st1))
    ∧ ((get_storage_plugin_info cfg st).1 = none ↔
        st.storage_plugin_info = none ∧ cfg.allocOk = false) := by
  refine ⟨?_, ?_, ?_, ?_⟩
  · intro info h
    exact get_storage_plugin_info_of_some cfg st info h
  · intro h hall
    simp [get_storage_plugin_info, h, hall]
  · intro info st1 h
    rcases hst : st.storage_plugin_info with _ | i
    · rcases hall : cfg.allocOk with _ | _
      · simp [get_storage_plugin_info, hst, hall] at h
      · simp only [get_storage_plugin_info, hst, hall, if_true] at h
        obtain ⟨h1, h2⟩ := Prod.mk.injEq .. ▸ h
        apply get_storage_plugin_info_of_some
        rw [← h2]
        simpa using h1
    · have := get_storage_plugin_info_of_some cfg st i hst
      rw [this] at h
      obtain ⟨h1, h2⟩ := Prod.mk.injEq .. ▸ h
      apply get_storage_plugin_info_of_some
      rw [← h2, hst]
      simpa using h1
  · rcases hst : st.storage_plugin_info with _ | i
    · rcases hall : cfg.allocOk with _ | _
      · simp [get_storage_plugin_info, hst, hall]
      · simp [get_storage_plugin_info, hst, hall]
    · simp [get_storage_plugin_info_of_some cfg st i hst, hst]

/-- Witness for C7 at concrete states: the pristine state gets an
initialized registry seeded with the environment path and one hook
registration, and the initialized state `st0` is returned unchanged. -/
theorem get_storage_plugin_info_lazy_idempotent_witness :
    get_storage_plugin_info cfg0 stZ =
      (some
        { registered := []
          paths := cfg0.envPaths ++
            (if cfg0.useBuildRoot then cfg0.buildPaths else cfg0.installedPaths) },
       { stZ with
         storage_plugin_info := some
           { registered := []
             paths := cfg0.envPaths ++
               (if cfg0.useBuildRoot then cfg0.buildPaths else cfg0.installedPaths) }
         atexitCount := stZ.atexitCount + 1 })
    ∧ get_storage_plugin_info cfg0 st0 = (some info0, st0) :=
  ⟨(get_storage_plugin_info_lazy_idempotent cfg0 stZ).2.1 rfl rfl,
   (get_storage_plugin_info_lazy_idempotent cfg0 st0).1 info0 rfl⟩

/-- C2 counterexample: `dlite_storage_plugin_load_all` performs a full
rescan (over the search paths `["/p"]` of `st0`) yet leaves the cached
hash different from the digest of those paths, so an operation
performing a full rescan does not always leave the cached hash equal
to the digest of the search paths at the time of that rescan. -/
theorem load_all_stale_hash_counterexample :
    (dlite_storage_plugin_load_all cfg0 loader0 st0).2.2 = 1
    ∧ ¬ ((dlite_storage_plugin_load_all cfg0 loader0 st0).2.1.storage_plugin_path_hash
          = some (pathshash ["/p"])) := by
  decide

/-- C2 amended: the cached hash is updated only by the rescan branch
of `dlite_storage_plugin_get`, which sets it to the digest of the
search paths at the time of that rescan; a call of
`dlite_storage_plugin_get` performing no rescan leaves it unchanged,
and `dlite_storage_plugin_load_all` performs a full rescan without
updating the cached hash at all. -/
theorem storage_plugin_path_hash_discipline (cfg : Config) (loader : Loader)
    (st : GlobalState) (info : PluginInfoState)
    (h : st.storage_plugin_info = some info) :
    ((dlite_storage_plugin_load_all cfg loader st).2.2 = 1
      ∧ (dlite_storage_plugin_load_all cfg loader st).2.1.storage_plugin_path_hash
          = st.storage_plugin_path_hash)
    ∧ (∀ name,
        ((dlite_storage_plugin_get cfg loader st name).2.2 = 1 →
          (dlite_storage_plugin_get cfg loader st name).2.1.storage_plugin_path_hash
            = some (pathshash info.paths))
        ∧ ((dlite_storage_plugin_get cfg loader st name).2.2 = 0 →
          (dlite_storage_plugin_get cfg loader st name).2.1.storage_plugin_path_hash
            = st.storage_plugin_path_hash)) := by
  have hg := get_storage_plugin_info_of_some cfg st info h
  refine ⟨?_, ?_⟩
  · simp [dlite_storage_plugin_load_all, hg]
  · intro name
    rcases get_state_dichotomy cfg loader st info name h with ⟨h0, hs⟩ | ⟨h1, hs⟩
    · constructor
      · intro hk
        rw [h0] at hk
        cases hk
      · intro _
        rw [hs]
    · constructor
      · intro _
        rw [hs]
      · intro hk
        rw [h1] at hk
        cases hk

/-- Witness for C2 amended at a concrete state: `load_all` on `st0`
rescans and keeps the sentinel hash. -/
theorem storage_plugin_path_hash_discipline_witness :
    (dlite_storage_plugin_load_all cfg0 loader0 st0).2.2 = 1
    ∧ (dlite_storage_plugin_load_all cfg0 loader0 st0).2.1.storage_plugin_path_hash
        = st0.storage_plugin_path_hash :=
  (storage_plugin_path_hash_discipline cfg0 loader0 st0 info0 rfl).1

/-- C3 counterexample: starting from the pristine state, `load_all`
registers driver `x` (leaving the cached hash untouched), a new path
`/a` is appended, and the next resolve call — for the registered name
`x` — takes the fast path and performs zero rescans, not exactly
one. -/
theorem append_then_resolve_no_rescan_counterexample :
    (dlite_storage_plugin_get cfg0 loader0
      (dlite_storage_plugin_path_append cfg0
        (dlite_storage_plugin_load_all cfg0 loader0 stZ).2.1 "/a").2 "x").1
      = GetResult.found 1
    ∧ (dlite_storage_plugin_get cfg0 loader0
        (dlite_storage_plugin_path_append cfg0
          (dlite_storage_plugin_load_all cfg0 loader0 stZ).2.1 "/a").2 "x").2.2 = 0 := by
  decide

/-- C3 amended: two consecutive resolve calls (the search paths are
unchanged in between, as resolve never mutates them) perform at most
one rescan in total, so the later call never triggers a second rescan;
and after appending a new path, the next resolve call triggers exactly
one rescan provided the requested name is not already in the mapping
and the digest of the extended path list differs from the cached hash
(a resolve hitting the mapping fast path performs none). -/
theorem resolve_rescan_gating (cfg : Config) (loader : Loader) (st : GlobalState)
    (info : PluginInfoState) (name1 name2 : String) (p : String)
    (h : st.storage_plugin_info = some info) :
    ((dlite_storage_plugin_get cfg loader st name1).2.2 +
      (dlite_storage_plugin_get cfg loader
        (dlite_storage_plugin_get cfg loader st name1).2.1 name2).2.2 ≤ 1)
    ∧ (plugin_get_api info.registered name2 = none →
        st.storage_plugin_path_hash ≠ some (pathshash (info.paths ++ [p])) →
        (dlite_storage_plugin_get cfg loader
          (dlite_storage_plugin_path_append cfg st p).2 name2).2.2 = 1) := by
  constructor
  · rcases get_state_dichotomy cfg loader st info name1 h with ⟨h0, hs⟩ | ⟨h1, hs⟩
    · rw [h0, hs, Nat.zero_add]
      exact get_rescans_le_one cfg loader st name2
    · rw [h1, hs]
      have hcur :
          ({ st with
              storage_plugin_info := some (plugin_load_all loader info)
              storage_plugin_path_hash :=
                some (pathshash info.paths) } : GlobalState).storage_plugin_path_hash
            = some (pathshash (plugin_load_all loader info).paths) := by
        rw [plugin_load_all_paths]
      rw [get_no_rescan_of_hash_current cfg loader _ (plugin_load_all loader info)
        name2 rfl hcur]
  · intro hmiss hdiff
    exact get_rescans_eq_one_of cfg loader
      (dlite_storage_plugin_path_append cfg st p).2
      { info with paths := info.paths ++ [p] } name2
      (by rw [path_append_eq cfg st info p h])
      hmiss
      (by rw [path_append_eq cfg st info p h]; exact hdiff)

/-- Witness for C3 amended at concrete inputs: two resolves from `st0`
perform at most one rescan in total, and appending `/q` and resolving
the missing name `b` performs exactly one rescan. -/
theorem resolve_rescan_gating_witness :
    ((dlite_storage_plugin_get cfg0 loader0 st0 "a").2.2 +
      (dlite_storage_plugin_get cfg0 loader0
        (dlite_storage_plugin_get cfg0 loader0 st0 "a").2.1 "b").2.2 ≤ 1)
    ∧ (dlite_storage_plugin_get cfg0 loader0
        (dlite_storage_plugin_path_append cfg0 st0 "/q").2 "b").2.2 = 1 :=
  ⟨(resolve_rescan_gating cfg0 loader0 st0 info0 "a" "b" "/q" rfl).1,
   (resolve_rescan_gating cfg0 loader0 st0 info0 "a" "b" "/q" rfl).2 rfl (by decide)⟩

/-- C4: `dlite_storage_plugin_unload_all` unloads every registered
entry, leaving an empty mapping, and does not touch the cached path
hash or the search paths; consequently, when the cached hash matches
the digest of the current search paths, every subsequent resolve
performs no rescan and fails (terminating with the not-found message),
while an explicit `load_all` still performs a rescan and a path
mutation (append) makes the next resolve rescan exactly once. -/
theorem unload_all_clears_mapping_keeps_hash (cfg : Config) (loader : Loader)
    (st : GlobalState) (info : PluginInfoState)
    (h : st.storage_plugin_info = some info) :
    (dlite_storage_plugin_unload_all cfg st
      = { st with storage_plugin_info := some { info with registered := [] } })
    ∧ (st.storage_plugin_path_hash = some (pathshash info.paths) →
        ∀ name,
          dlite_storage_plugin_get cfg loader
              (dlite_storage_plugin_unload_all cfg st) name
            = (GetResult.terminated
                (storage_plugin_error_message cfg.useBuildRoot info.paths name),
               dlite_storage_plugin_unload_all cfg st, 0))
    ∧ (dlite_storage_plugin_load_all cfg loader
        (dlite_storage_plugin_unload_all cfg st)).2.2 = 1
    ∧ (st.storage_plugin_path_hash = some (pathshash info.paths) →
        ∀ p name,
          (dlite_storage_plugin_get cfg loader
            (dlite_storage_plugin_path_append cfg
              (dlite_storage_plugin_unload_all cfg st) p).2 name).2.2 = 1) := by
  have hg := get_storage_plugin_info_of_some cfg st info h
  have hU : dlite_storage_plugin_unload_all cfg st
      = { st with storage_plugin_info := some { info with registered := [] } } := by
    simp [dlite_storage_plugin_unload_all, hg]
  refine ⟨hU, ?_, ?_, ?_⟩
  · intro hh name
    rw [hU]
    exact get_hash_equal cfg loader
      { st with storage_plugin_info := some { info with registered := [] } }
      { info with registered := [] } name rfl rfl hh
  · rw [load_all_eq cfg loader (dlite_storage_plugin_unload_all cfg st)
      { info with registered := [] } (by rw [hU])]
  · intro hh p name
    have hdiff2 : st.storage_plugin_path_hash ≠ some (pathshash (info.paths ++ [p])) := by
      rw [hh]
      intro hcontra
      exact paths_ne_append_singleton info.paths p (Option.some.inj hcontra)
    exact get_rescans_eq_one_of cfg loader
      (dlite_storage_plugin_path_append cfg (dlite_storage_plugin_unload_all cfg st) p).2
      { info with registered := [], paths := info.paths ++ [p] } name
      (by rw [hU, path_append_eq cfg
          { st with storage_plugin_info := some { info with registered := [] } }
          { info with registered := [] } p rfl])
      rfl
      (by
        rw [hU, path_append_eq cfg
          { st with storage_plugin_info := some { info with registered := [] } }
          { info with registered := [] } p rfl]
        exact hdiff2)

/-- Witness for C4 at the concrete state `stH` (cached hash matching
the paths): after `unload_all`, resolving `a` terminates without a
rescan, and appending `/q` makes the next resolve rescan once. -/
theorem unload_all_clears_mapping_keeps_hash_witness :
    (dlite_storage_plugin_get cfg0 loader0
        (dlite_storage_plugin_unload_all cfg0 stH) "a"
      = (GetResult.terminated
          (storage_plugin_error_message cfg0.useBuildRoot info0.paths "a"),
         dlite_storage_plugin_unload_all cfg0 stH, 0))
    ∧ (dlite_storage_plugin_get cfg0 loader0
        (dlite_storage_plugin_path_append cfg0
          (dlite_storage_plugin_unload_all cfg0 stH) "/q").2 "a").2.2 = 1 :=
  ⟨(unload_all_clears_mapping_keeps_hash cfg0 loader0 stH info0 rfl).2.1 rfl "a",
   (unload_all_clears_mapping_keeps_hash cfg0 loader0 stH info0 rfl).2.2.2 rfl "/q" "a"⟩

/-- C5 counterexample: a failed resolution with two search paths
terminates with a message that nowhere names the
`DLITE_STORAGE_PLUGIN_DIRS` environment variable, so the failure
message does not always carry the environment-variable hint. -/
theorem error_message_no_hint_counterexample :
    (dlite_storage_plugin_get cfg0 loader0 stTwo "hdf5").1
      = GetResult.terminated (storage_plugin_error_message true ["/a", "/b"] "hdf5")
    ∧ ¬ ("DLITE_STORAGE_PLUGIN_DIRS".data <:+:
          (storage_plugin_error_message true ["/a", "/b"] "hdf5").data) := by
  constructor
  · set_option maxRecDepth 20000 in decide
  · set_option maxRecDepth 20000 in decide

/-- C5 amended: the failure message starts with a header carrying the
requested name, lists every directory of the search path set in order,
one indented line each, and ends with a hint naming
`DLITE_STORAGE_PLUGIN_DIRS` — prefixed by `DLITE_ROOT or ` exactly in
installed-prefix mode — if and only if the path list has at most one
entry; no explicit empty-list note is emitted. -/
theorem storage_plugin_error_message_structure (b : Bool) (paths : List String)
    (name : String) :
    storage_plugin_error_message b paths name =
      (if paths.length ≤ 1 then
        paths.foldl (fun acc p => acc ++ "    " ++ p ++ "\n")
          ("cannot find storage plugin for driver \"" ++ name ++
            "\" in search path:\n")
        ++ "Is the " ++ (if b then "" else "DLITE_ROOT or ") ++
          "DLITE_STORAGE_PLUGIN_DIRS enveronment variable(s) set?"
      else
        paths.foldl (fun acc p => acc ++ "    " ++ p ++ "\n")
          ("cannot find storage plugin for driver \"" ++ name ++
            "\" in search path:\n")) := by
  simp only [storage_plugin_error_message, scan_foldl, Nat.zero_add]

/-- C6: once the registry is initialized, a driver name still missing
after the hash-gated rescan step makes `dlite_storage_plugin_get`
terminate the process with the not-found message instead of returning;
the NULL return happens exactly when the registry itself cannot be
constructed, so the documented NULL-on-not-found return is never
reached for a missing driver. -/
theorem get_terminates_on_missing_driver (cfg : Config) (loader : Loader)
    (st : GlobalState) (name : String) :
    (∀ info, st.storage_plugin_info = some info →
      plugin_get_api info.registered name = none →
      plugin_get_api (plugin_load_all loader info).registered name = none →
      (dlite_storage_plugin_get cfg loader st name).1 =
        GetResult.terminated
          (storage_plugin_error_message cfg.useBuildRoot info.paths name))
    ∧ ((dlite_storage_plugin_get cfg loader st name).1 = GetResult.nullReturn ↔
        st.storage_plugin_info = none ∧ cfg.allocOk = false) := by
  constructor
  · intro info h h1 h2
    by_cases hh : st.storage_plugin_path_hash = some (pathshash info.paths)
    · rw [get_hash_equal cfg loader st info name h h1 hh]
    · rw [get_rescan_miss cfg loader st info name h h1 h2 hh]
  · exact (get_result_nullReturn_iff cfg loader st name).trans (get_info_none_iff cfg st)

/-- Witness for C6 at a concrete state: the missing driver `hdf5`
stays missing after the rescan over `/w` and the call terminates. -/
theorem get_terminates_on_missing_driver_witness :
    (dlite_storage_plugin_get cfg0 loader0 stW "hdf5").1 =
      GetResult.terminated
        (storage_plugin_error_message cfg0.useBuildRoot infoW.paths "hdf5") :=
  (get_terminates_on_missing_driver cfg0 loader0 stW "hdf5").1 infoW rfl rfl rfl

/-- C8: path insertion obeys clipped negative indexing on the search
path set of length `L`: index `-1` appends at index `L`, index
`L + 100` clips to `L`, index `-(L + 100)` clips to `0`, and in
general the returned value is the actual insertion index, a valid
position at which the path was inserted. -/
theorem path_insert_clipped_negative_indexing (cfg : Config) (st : GlobalState)
    (info : PluginInfoState) (p : String)
    (h : st.storage_plugin_info = some info) :
    (dlite_storage_plugin_path_insert cfg st (-1) p
      = ((info.paths.length : Int),
        { st with storage_plugin_info := some { info with paths := info.paths ++ [p] } }))
    ∧ ((dlite_storage_plugin_path_insert cfg st ((info.paths.length : Int) + 100) p).1
        = (info.paths.length : Int))
    ∧ ((dlite_storage_plugin_path_insert cfg st (-((info.paths.length : Int) + 100)) p).1
        = 0)
    ∧ (∀ n : Int,
        (dlite_storage_plugin_path_insert cfg st n p).1
          = ((plugin_path_insert info.paths p n).2 : Int)
        ∧ (plugin_path_insert info.paths p n).2 ≤ info.paths.length
        ∧ (plugin_path_insert info.paths p n).1
            = info.paths.take (plugin_path_insert info.paths p n).2 ++
                p :: info.paths.drop (plugin_path_insert info.paths p n).2) := by
  have hg := get_storage_plugin_info_of_some cfg st info h
  refine ⟨?_, ?_, ?_, ?_⟩
  · simp [dlite_storage_plugin_path_insert, hg, plugin_path_insert_neg_one]
  · simp [dlite_storage_plugin_path_insert, hg, plugin_path_insert_clip_high]
  · simp only [dlite_storage_plugin_path_insert, hg]
    rw [plugin_path_insert_clip_low]
    rfl
  · intro n
    refine ⟨?_, (plugin_path_insert_spec info.paths p n).1,
      (plugin_path_insert_spec info.paths p n).2⟩
    simp [dlite_storage_plugin_path_insert, hg]

/-- Witness for C8 on the length-1 path set of `st0`: inserting at
`-1` appends at index 1, index 101 clips to 1, index `-101` clips
to 0. -/
theorem path_insert_clipped_negative_indexing_witness :
    (dlite_storage_plugin_path_insert cfg0 st0 (-1) "/q"
      = ((info0.paths.length : Int),
        { st0 with
          storage_plugin_info := some { info0 with paths := info0.paths ++ ["/q"] } }))
    ∧ ((dlite_storage_plugin_path_insert cfg0 st0 ((info0.paths.length : Int) + 100)
        "/q").1 = (info0.paths.length : Int))
    ∧ ((dlite_storage_plugin_path_insert cfg0 st0 (-((info0.paths.length : Int) + 100))
        "/q").1 = 0) :=
  ⟨(path_insert_clipped_negative_indexing cfg0 st0 info0 "/q" rfl).1,
   (path_insert_clipped_negative_indexing cfg0 st0 info0 "/q" rfl).2.1,
   (path_insert_clipped_negative_indexing cfg0 st0 info0 "/q" rfl).2.2.1⟩

/-- C9: `dlite_storage_plugin_load_all` fails (non-zero) exactly when
the registry is unavailable; on an initialized registry it returns 0
whatever the per-file outcomes are, and the rescan registers exactly
the successfully probed files — failed files are skipped without
affecting the registration of the others. -/
theorem load_all_error_reporting (cfg : Config) (loader : Loader) (st : GlobalState) :
    (∀ info, st.storage_plugin_info = some info →
      dlite_storage_plugin_load_all cfg loader st
        = (0, { st with storage_plugin_info := some (plugin_load_all loader info) }, 1))
    ∧ ((dlite_storage_plugin_load_all cfg loader st).1 ≠ 0 ↔
        st.storage_plugin_info = none ∧ cfg.allocOk = false)
    ∧ (∀ info, (plugin_load_all loader info).registered
        = ((loader info.paths).filterMap id).foldl
            (fun r e => plugin_register r e.1 e.2) info.registered) := by
  refine ⟨?_, ?_, ?_⟩
  · intro info h
    exact load_all_eq cfg loader st info h
  · rcases hst : st.storage_plugin_info with _ | i
    · rcases hall : cfg.allocOk with _ | _
      · simp [dlite_storage_plugin_load_all, get_storage_plugin_info, hst, hall]
      · simp [dlite_storage_plugin_load_all, get_storage_plugin_info, hst, hall]
    · rw [load_all_eq cfg loader st i hst]
      simp [hst]
  · intro info
    exact foldl_skip_failures (loader info.paths) info.registered

/-- Witness for C9 at a concrete state: `load_all` on `st0` succeeds
and rescans once even though the scan contains a failing file. -/
theorem load_all_error_reporting_witness :
    dlite_storage_plugin_load_all cfg0 loader0 st0
      = (0, { st0 with storage_plugin_info := some (plugin_load_all loader0 info0) }, 1) :=
  (load_all_error_reporting cfg0 loader0 st0).1 info0 rfl

/-- C10: when the registry cannot be constructed,
`dlite_storage_plugin_path_insert`, `dlite_storage_plugin_path_append`
and `dlite_storage_plugin_path_appendn` all return 1 — which differs
from the documented -1 error value and coincides with the value of a
perfectly valid successful call returning insertion index 1. -/
theorem path_ops_error_return_collision (cfg : Config) (st : GlobalState)
    (h1 : st.storage_plugin_info = none) (h2 : cfg.allocOk = false) :
    (∀ n p, (dlite_storage_plugin_path_insert cfg st n p).1 = 1)
    ∧ (∀ p, (dlite_storage_plugin_path_append cfg st p).1 = 1)
    ∧ (∀ p n, (dlite_storage_plugin_path_appendn cfg st p n).1 = 1)
    ∧ ((1 : Int) ≠ -1)
    ∧ (dlite_storage_plugin_path_append cfg0 stOne "/b").1 = 1 := by
  refine ⟨?_, ?_, ?_, by decide, by decide⟩
  · intro n p
    simp [dlite_storage_plugin_path_insert, get_storage_plugin_info, h1, h2]
  · intro p
    simp [dlite_storage_plugin_path_append, get_storage_plugin_info, h1, h2]
  · intro p n
    simp [dlite_storage_plugin_path_appendn, get_storage_plugin_info, h1, h2]

/-- Witness for C10 at concrete inputs: all three path operations
return 1 on the unconstructible registry. -/
theorem path_ops_error_return_collision_witness :
    (dlite_storage_plugin_path_insert cfgBad stZ 0 "/x").1 = 1
    ∧ (dlite_storage_plugin_path_append cfgBad stZ "/x").1 = 1
    ∧ (dlite_storage_plugin_path_appendn cfgBad stZ "/xyz" 2).1 = 1 :=
  ⟨(path_ops_error_return_collision cfgBad stZ rfl rfl).1 0 "/x",
   (path_ops_error_return_collision cfgBad stZ rfl rfl).2.1 "/x",
   (path_ops_error_return_collision cfgBad stZ rfl rfl).2.2.1 "/xyz" 2⟩

end DliteStoragePlugins
